import Mathlib

/-!
Verification of the katana task-supervision subsystem
(`crates/katana/tasks/src/{manager.rs, task.rs, metrics.rs}`).

The Rust code is shallowly embedded: futures become explicit resolution
descriptions (number of polls until ready, plus the value produced or the
panic payload raised), the `tokio::select!` race between a task body and the
shared `CancellationToken` becomes a function of the two resolution times
plus a tie-break parameter (select polls its branches in nondeterministic
order, so a simultaneous tie may go either way), and side effects
(cancelling the token, constructing a panic record, emitting a `error!`
tracing event) are returned as explicit data.
-/

/-- Model of a panic payload, i.e. the `Box<dyn Any + Send>` captured by
`catch_unwind`. `downcast_ref::<String>` succeeds exactly on the `str`
constructor and fails on `nonStr` (any non-string payload). -/
inductive PanicPayload where
  | str (s : String)
  | nonStr
deriving DecidableEq, Repr

namespace Manager

/-- `PanickedTaskError` from `manager.rs`: the name of the panicked task and
the boxed panic payload. -/
structure PanickedTaskError where
  task_name : String
  error : PanicPayload
deriving DecidableEq, Repr

/-- The `Display` impl from `manager.rs` lines 22-29: it matches
`self.error.downcast_ref::<String>()`; on `None` it writes nothing
(`Ok(())`), on `Some(msg)` it writes `{msg}` alone. The rendered string is
therefore the bare message, or empty. -/
def PanickedTaskError.display (e : PanickedTaskError) : String :=
  match e.error with
  | .nonStr => ""
  | .str msg => msg

/-- `tokio_util::sync::CancellationToken`, reduced to its observable state:
whether it has been cancelled. -/
structure CancellationToken where
  fired : Bool
deriving DecidableEq, Repr

/-- `CancellationToken::cancel`: sets the token to the fired state,
regardless of its previous state. -/
def CancellationToken.cancel (_ct : CancellationToken) : CancellationToken :=
  ⟨true⟩

/-- `CancellationToken::is_cancelled`. -/
def CancellationToken.is_cancelled (ct : CancellationToken) : Bool :=
  ct.fired

/-- `tokio_util::task::TaskTracker`, reduced to: whether `close` has been
called, and how many tracked tasks are currently in flight. -/
structure TaskTracker where
  closed : Bool
  active : Nat
deriving DecidableEq, Repr

/-- `TaskTracker::close`: marks the tracker closed (monotonic). Per the
tokio_util documentation this only allows `wait` futures to complete once
the tracker is also empty; it does NOT prevent new tasks from being added
afterwards. -/
def TaskTracker.close (t : TaskTracker) : TaskTracker :=
  { t with closed := true }

/-- Registering one more task with the tracker, as performed by
`TaskTracker::spawn_on`. tokio_util's tracker accepts new tasks even after
`close`; there is no rejected/error case. -/
def TaskTracker.track (t : TaskTracker) : TaskTracker :=
  { t with active := t.active + 1 }

/-- `TaskManager` from `manager.rs`: the Tokio runtime `handle` field is an
opaque executor reference with no bearing on the managed state, so the model
keeps only the tracker and the shared cancellation token. -/
structure TaskManager where
  tracker : TaskTracker
  on_cancel : CancellationToken
deriving DecidableEq, Repr

/-- `TaskManager::new`: an open tracker with no tasks, and an unfired
cancellation token. -/
def TaskManager.new : TaskManager :=
  ⟨⟨false, 0⟩, ⟨false⟩⟩

/-- `TaskResult` from `manager.rs` lines 128-135. -/
inductive TaskResult (T : Type) where
  | Completed (val : T)
  | Cancelled
deriving DecidableEq, Repr

/-- `TaskResult::is_cancelled`. -/
def TaskResult.is_cancelled {T : Type} : TaskResult T → Bool
  | .Cancelled => true
  | _ => false

/-- Semantic description of a spawned future body: it either resolves after
`steps` polls with a value, raises a panic at its `steps`-th poll, or never
becomes ready. -/
inductive FutBody (T : Type) where
  | resolves (steps : Nat) (val : T)
  | panics (steps : Nat) (payload : PanicPayload)
  | diverges
deriving DecidableEq, Repr

/-- What awaiting the `JoinHandle` of a spawned task can observe: the
`TaskResult` produced by the `tokio::select!` race, a `JoinError` because
the task body panicked while being polled, or nothing ever (the task never
finishes). -/
inductive JoinOutcome (T : Type) where
  | outcome (res : TaskResult T)
  | panicked (payload : PanicPayload)
  | pending
deriving DecidableEq, Repr

/-- Whether a `JoinOutcome` is one of the two `TaskResult` outcomes
(`Completed` or `Cancelled`). -/
def JoinOutcome.isTaskResult {T : Type} : JoinOutcome T → Bool
  | .outcome _ => true
  | _ => false

/-- Whether the task branch of the `tokio::select!` race wins against the
cancellation branch: the body is ready at poll `steps`, the signal resolves
at `signalAt` (`none` if it never fires), and a simultaneous tie is decided
by the nondeterministic branch-polling order, exposed as `tieBody`. -/
def winsAgainst (steps : Nat) (signalAt : Option Nat) (tieBody : Bool) : Bool :=
  match signalAt with
  | none => true
  | some f => Nat.blt steps f || (steps == f && tieBody)

/-- The `tokio::select!` race in `TaskManager::spawn_task` lines 90-94:
whichever branch resolves first wins; the loser is dropped. A body that
panics while being polled aborts the whole spawned task with a `JoinError`.
A body that never resolves while the signal never fires leaves the task
pending forever. -/
def runRace {T : Type} : FutBody T → Option Nat → Bool → JoinOutcome T
  | .resolves s v, sig, tie =>
      if winsAgainst s sig tie then .outcome (.Completed v) else .outcome .Cancelled
  | .panics s p, sig, tie =>
      if winsAgainst s sig tie then .panicked p else .outcome .Cancelled
  | .diverges, some _, _ => .outcome .Cancelled
  | .diverges, none, _ => .pending

/-- Whether the race drives the body all the way to its own resolution
point (as opposed to dropping it unawaited when the signal wins, or polling
it forever). Side effects located at the body's resolution point happen
exactly when this is true. -/
def futDriven {T : Type} : FutBody T → Option Nat → Bool → Bool
  | .resolves s _, sig, tie => winsAgainst s sig tie
  | .panics s _, sig, tie => winsAgainst s sig tie
  | .diverges, _, _ => false

/-- A `tracing::error!` event as emitted by `critical_task`: the literal
message, the `task` field, and the `%error` field (the `Display` rendering
of the panic record). -/
structure LogEvent where
  message : String
  task : String
  error_render : String
deriving DecidableEq, Repr

/-- The future-shape part of `TaskManager::critical_task` lines 100-119:
`catch_unwind` turns a panic at poll `s` into an `Err` resolution at poll
`s`, `map_err` consumes it (its closure returns unit), and `map(drop)`
discards a successful value, so the wrapped future always resolves to unit
at the same poll at which the inner body resolved or panicked. -/
def critical_task_fut {T : Type} : FutBody T → FutBody Unit
  | .resolves s _ => .resolves s ()
  | .panics s _ => .resolves s ()
  | .diverges => .diverges

/-- The side effects of `TaskManager::critical_task`, which occur only if
the wrapped future is actually driven to its resolution point (`driven`):
on a panic, the closure passed to `map_err` runs `ct.cancel()`, constructs
`PanickedTaskError { task_name, error }`, and emits
`error!(%error, task = %task_name, "Critical task failed.")`. On a normal
resolution nothing happens. Returns the token state after the poll, the
panic record if one was constructed, and the emitted log events. -/
def critical_task_effects {T : Type} (task_name : String) (body : FutBody T)
    (driven : Bool) (ct : CancellationToken) :
    CancellationToken × Option PanickedTaskError × List LogEvent :=
  if driven then
    match body with
    | .panics _ p =>
        let err : PanickedTaskError := ⟨task_name, p⟩
        (ct.cancel, some err, [⟨"Critical task failed.", task_name, err.display⟩])
    | _ => (ct, none, [])
  else (ct, none, [])

/-- The bookkeeping part of `TaskManager::spawn_task` lines 83-98: the
future is registered with the tracker via `tracker.spawn_on` and a
`JoinHandle` is returned. The function's return type is
`TaskHandle<F::Output>` (a plain `JoinHandle`), so no error can be
returned; tokio_util's tracker registers the task even when closed. -/
def TaskManager.spawn_task (m : TaskManager) : TaskManager :=
  { m with tracker := m.tracker.track }

/-- Running `TaskManager::spawn` (lines 52-58) to completion on a body with
the given race parameters. `spawn` calls `spawn_task` directly: no wrapper
of any kind is applied, so the manager's token is untouched, no panic
record is constructed and no log event is emitted on this path; the race
outcome alone is what the join handle observes. -/
def TaskManager.spawn_run {T : Type} (m : TaskManager) (body : FutBody T)
    (signalAt : Option Nat) (tieBody : Bool) :
    TaskManager × JoinOutcome T × Option PanickedTaskError × List LogEvent :=
  (m.spawn_task, runRace body signalAt tieBody, none, [])

/-- Running `TaskManager::spawn_critical` (lines 63-68) to completion:
`spawn_task (critical_task name task)`. The body is wrapped by
`critical_task` before being raced, so the panic interception sits inside
the select race; its effects fire exactly when the wrapped future is driven
to its resolution point. -/
def TaskManager.spawn_critical_run {T : Type} (m : TaskManager) (name : String)
    (body : FutBody T) (signalAt : Option Nat) (tieBody : Bool) :
    TaskManager × JoinOutcome Unit × Option PanickedTaskError × List LogEvent :=
  let wrapped := critical_task_fut body
  let driven := futDriven wrapped signalAt tieBody
  let eff := critical_task_effects name body driven m.on_cancel
  (⟨m.tracker.track, eff.1⟩, runRace wrapped signalAt tieBody, eff.2.1, eff.2.2)

/-- One observation of the shared state over time, as seen by the two
awaits inside `wait_shutdown`: whether the cancellation token has fired,
and how many tracked tasks are still in flight. -/
structure Obs where
  fired : Bool
  active : Nat
deriving DecidableEq, Repr

/-- Suspend until an observation satisfying `p` comes by: returns the trace
suffix starting at the first such observation, or `none` if it never
arrives. -/
def dropUntil (p : Obs → Bool) : List Obs → Option (List Obs)
  | [] => none
  | o :: tl => if p o then some (o :: tl) else dropUntil p tl

/-- `TaskManager::wait_shutdown` lines 71-76, run against a trace of future
observations. Its first action closes the tracker; it then awaits
`on_cancel.cancelled()` (the first observation with `fired`), and from that
point awaits `tracker.wait()` (the first later observation with no active
tasks — the tracker is already closed by the first action, so emptiness is
the remaining condition). Returns the manager after the close, and the
trace suffix at which the call returns (`none` if it never returns). -/
def TaskManager.wait_shutdown (m : TaskManager) (tr : List Obs) :
    TaskManager × Option (List Obs) :=
  let m1 : TaskManager := { m with tracker := m.tracker.close }
  (m1,
    match dropUntil (fun o => o.fired) tr with
    | none => none
    | some s => dropUntil (fun o => o.active == 0) s)

/-- `impl Drop for TaskManager` lines 122-126: dropping the manager cancels
the token unconditionally. -/
def TaskManager.drop_impl (m : TaskManager) : TaskManager :=
  { m with on_cancel := m.on_cancel.cancel }

/-- The operations that can act on a manager's shared state over its
lifetime, used to state monotonicity of the cancellation signal. -/
inductive MgrOp where
  | spawnNormal
  | spawnCriticalPanic (name : String) (payload : PanicPayload)
  | explicitCancel
  | closeTracker
  | taskResolved
  | dropManager
deriving DecidableEq, Repr

/-- Apply one operation to the manager state. `spawnCriticalPanic` is a
critical task that panics immediately and is driven to that panic
(signal not yet competing); `taskResolved` is a tracked task finishing. -/
def TaskManager.applyOp (m : TaskManager) : MgrOp → TaskManager
  | .spawnNormal => m.spawn_task
  | .spawnCriticalPanic name p =>
      (m.spawn_critical_run name (FutBody.panics 0 p : FutBody Unit) none true).1
  | .explicitCancel => { m with on_cancel := m.on_cancel.cancel }
  | .closeTracker => { m with tracker := m.tracker.close }
  | .taskResolved => { m with tracker := { m.tracker with active := m.tracker.active - 1 } }
  | .dropManager => m.drop_impl

/-- Apply a sequence of operations in order. -/
def TaskManager.applyOps (m : TaskManager) (ops : List MgrOp) : TaskManager :=
  ops.foldl TaskManager.applyOp m

end Manager

namespace TaskMod

/-- `PanickedTaskError` from `task.rs` lines 156-161: unlike the
`manager.rs` type of the same name, it carries only the boxed panic
payload — there is no task-name field. -/
structure PanickedTaskError where
  error : PanicPayload
deriving DecidableEq, Repr

/-- The `Display` impl from `task.rs` lines 163-170: writes the downcast
string message alone, or nothing when the payload is not a `String`. -/
def PanickedTaskError.display (e : PanickedTaskError) : String :=
  match e.error with
  | .nonStr => ""
  | .str msg => msg

/-- A `tracing::error!` event emitted by `CriticalTaskBuilder::build`:
the literal message, the `task = name` field (an `Option<String>` here),
and the `%error` field (the record's `Display` rendering). -/
structure TLogEvent where
  message : String
  task : Option String
  error_render : String
deriving DecidableEq, Repr

/-- `TaskBuilder` from `task.rs` lines 11-20. The future is embedded by its
eventual outcome when polled to completion: a value, or a panic payload
raised during a poll. -/
structure TaskBuilder (T : Type) where
  fut : Except PanicPayload T
  metrics : Bool
  name : Option String

/-- `TaskBuilder::new`. -/
def TaskBuilder.new {T : Type} (fut : Except PanicPayload T) : TaskBuilder T :=
  ⟨fut, false, none⟩

/-- `TaskBuilder::with_metrics`. -/
def TaskBuilder.with_metrics {T : Type} (b : TaskBuilder T) : TaskBuilder T :=
  { b with metrics := true }

/-- `CriticalTaskBuilder` from `task.rs` lines 67-76. -/
structure CriticalTaskBuilder where
  fut : Except PanicPayload Unit
  metrics : Bool
  name : Option String

/-- `TaskBuilder::critical` (`task.rs` lines 53-65): defined only in the
`impl` block for `TaskBuilder<'fut, F, ()>`, i.e. only when the future's
output type is unit — mirrored here by the domain `TaskBuilder Unit`. It
moves the fields across unchanged. -/
def TaskBuilder.critical (b : TaskBuilder Unit) : CriticalTaskBuilder :=
  ⟨b.fut, b.metrics, b.name⟩

/-- The wrapping layers a non-critical built future can carry: the raw
body, optionally wrapped by `monitor.instrument`. -/
inductive NormWrap (T : Type) where
  | base (fut : Except PanicPayload T)
  | instrumented (inner : NormWrap T)

/-- The wrapping layers the critical built future carries: the panic
interception (`catch_unwind` + `map_err` logging closure + `map(drop)`)
applied to the raw body, optionally wrapped by `monitor.instrument`. -/
inductive CritWrap where
  | intercepted (name : Option String) (fut : Except PanicPayload Unit)
  | instrumented (inner : CritWrap)

/-- `TaskFut` from `task.rs` lines 124-127. As in the source enum, the
`Critical` variant stores a unit-output future while the enum itself is
generic over `T`; the crate's only constructor of that variant,
`TaskFut::critical`, is restricted to `T = ()`. -/
inductive TaskFut (T : Type) where
  | Normal (fut : NormWrap T)
  | Critical (fut : CritWrap)

/-- `TaskFut::new` (`task.rs` lines 129-133). -/
def TaskFut.new {T : Type} (w : NormWrap T) : TaskFut T :=
  .Normal w

/-- `TaskFut::critical` (`task.rs` lines 135-139): defined only in the
`impl` block for `TaskFut<'a, ()>`, mirrored by the codomain
`TaskFut Unit`. -/
def TaskFut.critical (w : CritWrap) : TaskFut Unit :=
  .Critical w

/-- `Task` from `task.rs` lines 119-122. The `TaskMonitor` handle carries
no state the claims observe beyond its presence. -/
structure Task (T : Type) where
  fut : TaskFut T
  monitor : Option Unit

/-- `TaskBuilder::build` (`task.rs` lines 41-50): with metrics the body is
instrumented before being boxed into the `Normal` variant; otherwise it is
boxed directly. -/
def TaskBuilder.build {T : Type} (b : TaskBuilder T) : Task T :=
  if b.metrics then ⟨TaskFut.new (.instrumented (.base b.fut)), some ()⟩
  else ⟨TaskFut.new (.base b.fut), none⟩

/-- `CriticalTaskBuilder::build` (`task.rs` lines 93-117): the body is
first wrapped with panic interception (`catch_unwind`, then the `map_err`
closure which constructs `PanickedTaskError { error }` and emits
`error!(%error, task = name, "Critical task failed.")` — note it holds no
cancellation token and cancels nothing — then `map(drop)`); only then, when
metrics are enabled, `monitor.instrument` is applied on the outside. -/
def CriticalTaskBuilder.build (b : CriticalTaskBuilder) : Task Unit :=
  let w : CritWrap := .intercepted b.name b.fut
  if b.metrics then ⟨TaskFut.critical (.instrumented w), some ()⟩
  else ⟨TaskFut.critical w, none⟩

/-- The observable result of driving a critical built future to
completion: the panic record constructed (if the body panicked), the log
events emitted, whether any cancellation signal was fired during the
interception, and the resolved value (always unit). -/
structure CritRunResult where
  record : Option PanickedTaskError
  logs : List TLogEvent
  fired : Bool
  value : Unit
deriving DecidableEq, Repr

/-- Driving a critical wrap to completion. The interception catches a
panic, constructs the record, and logs; the `map_err` closure body in
`task.rs` is exactly `let error = PanickedTaskError { error }; error!(...)`
— it performs no cancellation, hence `fired` is false on every path.
Instrumentation does not alter the outcome. -/
def CritWrap.run : CritWrap → CritRunResult
  | .intercepted name fut =>
      match fut with
      | .ok _ => ⟨none, [], false, ()⟩
      | .error p =>
          let err : PanickedTaskError := ⟨p⟩
          ⟨some err, [⟨"Critical task failed.", name, err.display⟩], false, ()⟩
  | .instrumented inner => inner.run

/-- Driving a normal wrap to completion: the body's own outcome (a panic
propagates, instrumentation does not alter it). -/
def NormWrap.run {T : Type} : NormWrap T → Except PanicPayload T
  | .base fut => fut
  | .instrumented inner => inner.run

/-- `std::mem::zeroed::<()>()`: the all-zero-bytes value of the unit type
is the unit value. -/
def zeroedUnit : Unit := ()

/-- `impl Future for TaskFut` (`task.rs` lines 141-154), run to
completion. A `Normal` future yields whatever its body yields. A
`Critical` future is polled until its (interception-wrapped, hence
panic-free) inner future resolves to unit, after which the poll arm
returns `std::mem::zeroed::<T>()`; that value is supplied here as
`zeroed`, and the crate instantiates this only at `T = ()` where the
zeroed value is `()` (`zeroedUnit`). -/
def TaskFut.run {T : Type} (zeroed : T) : TaskFut T → Except PanicPayload T
  | .Normal w => w.run
  | .Critical w =>
      match w.run with
      | _ => Except.ok zeroed

end TaskMod

namespace MetricsMod

/-- One `tokio_metrics::TaskMetrics` sample; the reporter reads only its
`total_first_poll_delay`, modelled in nanoseconds. -/
structure TaskMetricsSample where
  total_first_poll_delay : Nat
deriving DecidableEq, Repr

/-- One entry of the `TaskManagerMetrics` map (`metrics.rs` lines 17-20):
the histogram of values recorded so far for this task, and the remaining
elements of its sample-interval iterator. -/
structure TaskEntry where
  total_first_poll_delay_hist : List Nat
  intervals : List TaskMetricsSample
deriving DecidableEq, Repr

/-- One iteration of the loop body in `Report::report` (`metrics.rs` lines
24-28): `intervals.next().unwrap()` — a panic (modelled as `Except.error`)
when the iterator is exhausted — then the sample's
`total_first_poll_delay` is recorded into the histogram. -/
def reportOne (e : TaskEntry) : Except Unit TaskEntry :=
  match e.intervals with
  | [] => .error ()
  | s :: rest =>
      .ok ⟨e.total_first_poll_delay_hist ++ [s.total_first_poll_delay], rest⟩

/-- `impl Report for TaskManagerMetrics` (`metrics.rs` lines 22-30): the
loop over every registered task's entry; a panic at any entry aborts the
whole report call. -/
def report : List TaskEntry → Except Unit (List TaskEntry)
  | [] => .ok []
  | e :: tl =>
      match reportOne e with
      | .error u => .error u
      | .ok e2 =>
          match report tl with
          | .error u => .error u
          | .ok tl2 => .ok (e2 :: tl2)

end MetricsMod

/-- Every single manager operation preserves a fired cancellation token. -/
theorem applyOp_fired_mono (m : Manager.TaskManager) (op : Manager.MgrOp)
    (h : m.on_cancel.fired = true) :
    (m.applyOp op).on_cancel.fired = true := by
  cases op <;>
    simp [Manager.TaskManager.applyOp, Manager.TaskManager.spawn_task,
      Manager.TaskManager.spawn_critical_run, Manager.critical_task_effects,
      Manager.critical_task_fut, Manager.futDriven, Manager.winsAgainst,
      Manager.CancellationToken.cancel, Manager.TaskManager.drop_impl, h]

/-- A fired cancellation token stays fired across any sequence of manager
operations. -/
theorem applyOps_fired_mono (ops : List Manager.MgrOp) :
    ∀ m : Manager.TaskManager, m.on_cancel.fired = true →
      (m.applyOps ops).on_cancel.fired = true := by
  induction ops with
  | nil => intro m h; exact h
  | cons op tl ih =>
      intro m h
      exact ih (m.applyOp op) (applyOp_fired_mono m op h)

/-- C1: for a critical task spawned via `spawn_critical` whose body panics
while the race drives it to that panic, the panic is intercepted: the
payload and the supplied name are captured into a `PanickedTaskError`, a
diagnostic `error!` event is emitted, the shared cancellation token is
fired, and the wrapped future resolves to unit, so the manager observes
the outcome `Completed(())` rather than an error. -/
theorem c1_critical_panic_intercepted (m : Manager.TaskManager) (name : String)
    {T : Type} (body : Manager.FutBody T) (s : Nat) (p : PanicPayload)
    (sig : Option Nat) (tie : Bool)
    (hb : body = Manager.FutBody.panics s p)
    (hw : Manager.winsAgainst s sig tie = true) :
    (m.spawn_critical_run name body sig tie).2.1
      = Manager.JoinOutcome.outcome (Manager.TaskResult.Completed ()) ∧
    (m.spawn_critical_run name body sig tie).1.on_cancel.fired = true ∧
    (m.spawn_critical_run name body sig tie).2.2.1
      = some ⟨name, p⟩ ∧
    (m.spawn_critical_run name body sig tie).2.2.2
      = [⟨"Critical task failed.", name,
           Manager.PanickedTaskError.display ⟨name, p⟩⟩] := by
  subst hb
  refine ⟨?_, ?_, ?_, ?_⟩ <;>
    simp [Manager.TaskManager.spawn_critical_run, Manager.critical_task_fut,
      Manager.futDriven, Manager.critical_task_effects, Manager.runRace, hw,
      Manager.CancellationToken.cancel]

/-- C1 witness: a critical task named "X" panicking at its first poll with
payload "boom", with the signal not yet competing. -/
theorem c1_witness :
    (Manager.TaskManager.new.spawn_critical_run "X"
        (Manager.FutBody.panics 0 (PanicPayload.str "boom") : Manager.FutBody Unit) none true).2.1
      = Manager.JoinOutcome.outcome (Manager.TaskResult.Completed ()) ∧
    (Manager.TaskManager.new.spawn_critical_run "X"
        (Manager.FutBody.panics 0 (PanicPayload.str "boom") : Manager.FutBody Unit) none true).1.on_cancel.fired = true ∧
    (Manager.TaskManager.new.spawn_critical_run "X"
        (Manager.FutBody.panics 0 (PanicPayload.str "boom") : Manager.FutBody Unit) none true).2.2.1
      = some ⟨"X", PanicPayload.str "boom"⟩ ∧
    (Manager.TaskManager.new.spawn_critical_run "X"
        (Manager.FutBody.panics 0 (PanicPayload.str "boom") : Manager.FutBody Unit) none true).2.2.2
      = [⟨"Critical task failed.", "X",
           Manager.PanickedTaskError.display ⟨"X", PanicPayload.str "boom"⟩⟩] :=
  c1_critical_panic_intercepted Manager.TaskManager.new "X" _ 0
    (PanicPayload.str "boom") none true rfl rfl

/-- C2 counterexample: the `Display` impl writes only the downcast message
(or nothing), never the claimed "Task ... panicked ..." framing; at task
name "X" and string payload "boom" the rendering is exactly "boom". -/
theorem c2_panic_record_render_counterexample :
    Manager.PanickedTaskError.display ⟨"X", PanicPayload.str "boom"⟩
      ≠ "Task 'X' panicked with error: boom" ∧
    Manager.PanickedTaskError.display ⟨"X", PanicPayload.nonStr⟩
      ≠ "Task 'X' panicked" ∧
    Manager.PanickedTaskError.display ⟨"X", PanicPayload.str "boom"⟩ = "boom" ∧
    Manager.PanickedTaskError.display ⟨"X", PanicPayload.nonStr⟩ = "" := by
  refine ⟨by decide, by decide, rfl, rfl⟩

/-- C2 amended: rendering a panic record (either the `manager.rs` or the
`task.rs` variant) yields exactly the message when the captured payload is
inspectable as a string, and the empty string otherwise; the task name
never appears in the rendering. -/
theorem c2_panic_record_render (n msg : String) :
    Manager.PanickedTaskError.display ⟨n, PanicPayload.str msg⟩ = msg ∧
    Manager.PanickedTaskError.display ⟨n, PanicPayload.nonStr⟩ = "" ∧
    TaskMod.PanickedTaskError.display ⟨PanicPayload.str msg⟩ = msg ∧
    TaskMod.PanickedTaskError.display ⟨PanicPayload.nonStr⟩ = "" :=
  ⟨rfl, rfl, rfl, rfl⟩

/-- C3 counterexample: on a manager whose tracker is closed (and with no
running tasks), `spawn_task` still registers the task with the tracker —
the call is silently accepted; its return type (`TaskHandle`, a plain
`JoinHandle`) has no error case at all, so no error can reach the caller. -/
theorem c3_spawn_after_close_counterexample :
    (Manager.TaskManager.spawn_task ⟨⟨true, 0⟩, ⟨false⟩⟩).tracker.active = 1 ∧
    (Manager.TaskManager.spawn_task ⟨⟨true, 0⟩, ⟨false⟩⟩).tracker.closed = true :=
  ⟨rfl, rfl⟩

/-- C3 amended: after drain has begun (tracker closed), `spawn` and
`spawn_critical` are still accepted: the task is registered with the
tracker and run, a handle is returned, no error is produced and nothing
panics; the tracker stays closed and the cancellation token is untouched. -/
theorem c3_spawn_after_close (m : Manager.TaskManager)
    (h : m.tracker.closed = true) :
    (m.spawn_task).tracker.active = m.tracker.active + 1 ∧
    (m.spawn_task).tracker.closed = true ∧
    (m.spawn_task).on_cancel = m.on_cancel := by
  refine ⟨rfl, ?_, rfl⟩
  simpa [Manager.TaskManager.spawn_task, Manager.TaskTracker.track] using h

/-- C3 witness: a closed tracker with two in-flight tasks accepts a third. -/
theorem c3_witness :
    (Manager.TaskManager.spawn_task ⟨⟨true, 2⟩, ⟨false⟩⟩).tracker.active = 2 + 1 ∧
    (Manager.TaskManager.spawn_task ⟨⟨true, 2⟩, ⟨false⟩⟩).tracker.closed = true ∧
    (Manager.TaskManager.spawn_task ⟨⟨true, 2⟩, ⟨false⟩⟩).on_cancel = ⟨false⟩ :=
  c3_spawn_after_close ⟨⟨true, 2⟩, ⟨false⟩⟩ rfl

/-- C7: the cancellation signal is monotonic and idempotent — cancelling an
already-cancelled token is a no-op, cancelling twice leaves the whole
manager state identical to cancelling once, the signal once fired stays
fired across every manager operation, and dropping the manager fires it
unconditionally. -/
theorem c7_cancellation_monotone_idempotent :
    (∀ ct : Manager.CancellationToken, ct.cancel.cancel = ct.cancel) ∧
    (∀ m : Manager.TaskManager,
       Manager.TaskManager.applyOp (Manager.TaskManager.applyOp m .explicitCancel) .explicitCancel
         = Manager.TaskManager.applyOp m .explicitCancel) ∧
    (∀ m : Manager.TaskManager, (m.drop_impl).on_cancel.fired = true) ∧
    (∀ (m : Manager.TaskManager) (ops : List Manager.MgrOp),
       m.on_cancel.fired = true → (m.applyOps ops).on_cancel.fired = true) :=
  ⟨fun _ => rfl, fun _ => rfl, fun _ => rfl,
   fun m ops h => applyOps_fired_mono ops m h⟩

/-- C7 witness: a manager cancelled once stays fired through a spawn, a
task resolution, a second cancel, and its drop. -/
theorem c7_witness :
    (Manager.TaskManager.applyOps ⟨⟨false, 0⟩, ⟨true⟩⟩
        [.spawnNormal, .taskResolved, .explicitCancel, .dropManager]).on_cancel.fired = true :=
  c7_cancellation_monotone_idempotent.2.2.2 ⟨⟨false, 0⟩, ⟨true⟩⟩
    [.spawnNormal, .taskResolved, .explicitCancel, .dropManager] rfl

/-- C9: `spawn` applies no panic interception: the manager's cancellation
token is untouched, no panic record is constructed and no diagnostic is
emitted on this path, and a body that panics while winning the race
surfaces as a propagated panic on the join handle. -/
theorem c9_spawn_no_interception {T : Type} (m : Manager.TaskManager)
    (body : Manager.FutBody T) (sig : Option Nat) (tie : Bool) :
    (m.spawn_run body sig tie).1.on_cancel = m.on_cancel ∧
    (m.spawn_run body sig tie).2.2.1 = none ∧
    (m.spawn_run body sig tie).2.2.2 = [] ∧
    (∀ s p, body = Manager.FutBody.panics s p →
       Manager.winsAgainst s sig tie = true →
       (m.spawn_run body sig tie).2.1 = Manager.JoinOutcome.panicked p) := by
  refine ⟨rfl, rfl, rfl, ?_⟩
  intro s p hb hw
  subst hb
  simp [Manager.TaskManager.spawn_run, Manager.runRace, hw]

/-- C9 witness: a normal task panicking at its first poll with no signal
competing propagates the panic unintercepted. -/
theorem c9_witness :
    (Manager.TaskManager.new.spawn_run
        (Manager.FutBody.panics 0 (PanicPayload.str "boom") : Manager.FutBody Unit) none true).2.1
      = Manager.JoinOutcome.panicked (PanicPayload.str "boom") :=
  (c9_spawn_no_interception Manager.TaskManager.new _ none true).2.2.2 0
    (PanicPayload.str "boom") rfl rfl

/-- A successful `dropUntil` returns a nonempty suffix whose head satisfies
the awaited condition. -/
theorem dropUntil_head (p : Manager.Obs → Bool) :
    ∀ l s, Manager.dropUntil p l = some s → ∃ o tl, s = o :: tl ∧ p o = true := by
  intro l
  induction l with
  | nil => intro s h; cases h
  | cons o tl ih =>
      intro s h
      cases hp : p o with
      | true =>
          simp [Manager.dropUntil, hp] at h
          exact ⟨o, tl, h.symm, hp⟩
      | false =>
          simp [Manager.dropUntil, hp] at h
          exact ih s h

/-- A successful `dropUntil` returns a suffix of the trace it scanned. -/
theorem dropUntil_suffix (p : Manager.Obs → Bool) :
    ∀ l s, Manager.dropUntil p l = some s → List.IsSuffix s l := by
  intro l
  induction l with
  | nil => intro s h; cases h
  | cons o tl ih =>
      intro s h
      cases hp : p o with
      | true =>
          simp [Manager.dropUntil, hp] at h
          exact h ▸ List.suffix_refl (o :: tl)
      | false =>
          simp [Manager.dropUntil, hp] at h
          exact (ih s h).trans (List.suffix_cons o tl)

/-- `dropUntil` resolves immediately when the first observation already
satisfies the condition. -/
theorem dropUntil_cons_self (p : Manager.Obs → Bool) (o : Manager.Obs)
    (tl : List Manager.Obs) (h : p o = true) :
    Manager.dropUntil p (o :: tl) = some (o :: tl) := by
  simp [Manager.dropUntil, h]

/-- C4: `wait_shutdown` closes the tracker as its very first action, and
returns only at a point of the trace at which no tracked task is in flight
and which lies at or after a point at which the cancellation signal had
fired; with zero in-flight tasks throughout, it returns exactly when the
signal fires. -/
theorem c4_wait_shutdown (m : Manager.TaskManager) (tr : List Manager.Obs) :
    ((m.wait_shutdown tr).1.tracker.closed = true) ∧
    (∀ s, (m.wait_shutdown tr).2 = some s →
       (∃ o tl, s = o :: tl ∧ o.active = 0) ∧
       (∃ t, List.IsSuffix t tr ∧ List.IsSuffix s t ∧
          ∃ o2 tl2, t = o2 :: tl2 ∧ o2.fired = true)) ∧
    ((∀ o ∈ tr, o.active = 0) →
       (m.wait_shutdown tr).2 = Manager.dropUntil (fun o => o.fired) tr) := by
  refine ⟨rfl, ?_, ?_⟩
  · intro s hs
    simp only [Manager.TaskManager.wait_shutdown] at hs
    cases h1 : Manager.dropUntil (fun o => o.fired) tr with
    | none => rw [h1] at hs; cases hs
    | some t =>
        rw [h1] at hs
        obtain ⟨o, tl, rfl, ho⟩ := dropUntil_head _ t s hs
        obtain ⟨o2, tl2, ht2, ho2⟩ := dropUntil_head _ tr t h1
        refine ⟨⟨o, tl, rfl, ?_⟩, t, dropUntil_suffix _ tr t h1,
          dropUntil_suffix _ t _ hs, o2, tl2, ht2, ho2⟩
        simpa using ho
  · intro hall
    simp only [Manager.TaskManager.wait_shutdown]
    cases h1 : Manager.dropUntil (fun o => o.fired) tr with
    | none => rfl
    | some t =>
        obtain ⟨o, tl, rfl, _⟩ := dropUntil_head _ tr t h1
        have hmem : o ∈ tr := (dropUntil_suffix _ tr _ h1).subset (by simp)
        have hz : (o.active == 0) = true := by simp [hall o hmem]
        show Manager.dropUntil (fun o => o.active == 0) (o :: tl) = some (o :: tl)
        exact dropUntil_cons_self (fun o => o.active == 0) o tl hz

/-- C4 witness: a manager with one task still running when the signal
fires; `wait_shutdown` closes the tracker and returns at the later point
where the task count reaches zero, and on an always-empty trace it returns
the moment the signal fires. -/
theorem c4_witness :
    ((Manager.TaskManager.new.wait_shutdown
        [⟨false, 1⟩, ⟨true, 1⟩, ⟨true, 0⟩]).1.tracker.closed = true) ∧
    ((∃ o tl, [Manager.Obs.mk true 0] = o :: tl ∧ o.active = 0) ∧
      (∃ t, List.IsSuffix t [⟨false, 1⟩, ⟨true, 1⟩, ⟨true, 0⟩] ∧
         List.IsSuffix [Manager.Obs.mk true 0] t ∧
         ∃ o2 tl2, t = o2 :: tl2 ∧ o2.fired = true)) ∧
    ((Manager.TaskManager.new.wait_shutdown [⟨false, 0⟩, ⟨true, 0⟩]).2
        = Manager.dropUntil (fun o => o.fired) [⟨false, 0⟩, ⟨true, 0⟩]) :=
  ⟨(c4_wait_shutdown Manager.TaskManager.new [⟨false, 1⟩, ⟨true, 1⟩, ⟨true, 0⟩]).1,
   (c4_wait_shutdown Manager.TaskManager.new [⟨false, 1⟩, ⟨true, 1⟩, ⟨true, 0⟩]).2.1
     [Manager.Obs.mk true 0] (by decide),
   (c4_wait_shutdown Manager.TaskManager.new [⟨false, 0⟩, ⟨true, 0⟩]).2.2 (by decide)⟩

/-- C5 counterexample: a normal task whose body panics at its first poll
while the signal only fires at step 5 yields neither `Completed` nor
`Cancelled` — the join handle observes a propagated panic — refuting
"never neither" as stated over every task spawned via `spawn`. -/
theorem c5_race_outcome_counterexample :
    (Manager.TaskManager.new.spawn_run
        (Manager.FutBody.panics 0 (PanicPayload.str "boom") : Manager.FutBody Unit)
        (some 5) true).2.1
      = Manager.JoinOutcome.panicked (PanicPayload.str "boom") ∧
    Manager.JoinOutcome.isTaskResult
      ((Manager.TaskManager.new.spawn_run
          (Manager.FutBody.panics 0 (PanicPayload.str "boom") : Manager.FutBody Unit)
          (some 5) true).2.1) = false := by
  refine ⟨by decide, by decide⟩

/-- C5 amended: each spawned task yields at most one outcome, determined by
the race: `Completed v` when the body resolves with `v` no later than the
signal (winning any tie), `Cancelled` when the signal resolves first — the
body then not driven to completion, i.e. dropped unawaited — including for
panicking or diverging bodies; and the outcome is unique. The exception
forced by the counterexample: a normal body that panics while winning the
race, or diverges while the signal never fires, produces neither outcome. -/
theorem c5_race_outcome {T : Type} (body : Manager.FutBody T)
    (sig : Option Nat) (tie : Bool) :
    (∀ s v, body = Manager.FutBody.resolves s v →
       Manager.winsAgainst s sig tie = true →
       Manager.runRace body sig tie
         = Manager.JoinOutcome.outcome (Manager.TaskResult.Completed v)) ∧
    (∀ s v, body = Manager.FutBody.resolves s v →
       Manager.winsAgainst s sig tie = false →
       Manager.runRace body sig tie
         = Manager.JoinOutcome.outcome Manager.TaskResult.Cancelled ∧
       Manager.futDriven body sig tie = false) ∧
    (∀ s p, body = Manager.FutBody.panics s p →
       Manager.winsAgainst s sig tie = false →
       Manager.runRace body sig tie
         = Manager.JoinOutcome.outcome Manager.TaskResult.Cancelled ∧
       Manager.futDriven body sig tie = false) ∧
    (∀ f, body = Manager.FutBody.diverges → sig = some f →
       Manager.runRace body sig tie
         = Manager.JoinOutcome.outcome Manager.TaskResult.Cancelled) ∧
    (∀ r1 r2, Manager.runRace body sig tie = Manager.JoinOutcome.outcome r1 →
       Manager.runRace body sig tie = Manager.JoinOutcome.outcome r2 → r1 = r2) := by
  refine ⟨?_, ?_, ?_, ?_, ?_⟩
  · intro s v hb hw; subst hb; simp [Manager.runRace, hw]
  · intro s v hb hw; subst hb
    exact ⟨by simp [Manager.runRace, hw], by simp [Manager.futDriven, hw]⟩
  · intro s p hb hw; subst hb
    exact ⟨by simp [Manager.runRace, hw], by simp [Manager.futDriven, hw]⟩
  · intro f hb hf; subst hb; subst hf; simp [Manager.runRace]
  · intro r1 r2 h1 h2
    rw [h1] at h2
    exact (Manager.JoinOutcome.outcome.injEq r1 r2).mp h2

/-- C5 witness: a body resolving at poll 1 with value 42 under no signal
completes with 42; a body resolving at poll 3 against a signal firing at
step 2 is cancelled and not driven to completion. -/
theorem c5_witness :
    Manager.runRace (Manager.FutBody.resolves 1 (42 : Nat)) none true
      = Manager.JoinOutcome.outcome (Manager.TaskResult.Completed 42) ∧
    Manager.runRace (Manager.FutBody.resolves 3 (7 : Nat)) (some 2) true
      = Manager.JoinOutcome.outcome Manager.TaskResult.Cancelled ∧
    Manager.futDriven (Manager.FutBody.resolves 3 (7 : Nat)) (some 2) true = false :=
  ⟨(c5_race_outcome (Manager.FutBody.resolves 1 (42 : Nat)) none true).1 1 42 rfl rfl,
   ((c5_race_outcome (Manager.FutBody.resolves 3 (7 : Nat)) (some 2) true).2.1 3 7 rfl rfl).1,
   ((c5_race_outcome (Manager.FutBody.resolves 3 (7 : Nat)) (some 2) true).2.1 3 7 rfl rfl).2⟩

/-- C6 counterexample: building a critical task (metrics on, name "X")
whose body panics with "boom" — the interception layer is innermost as
claimed, but driving it fires no cancellation signal at all: the
`map_err` closure in `CriticalTaskBuilder::build` only constructs the
record and logs; it holds no token to cancel. -/
theorem c6_build_order_counterexample :
    (TaskMod.CriticalTaskBuilder.build
        ⟨Except.error (PanicPayload.str "boom"), true, some "X"⟩).fut
      = TaskMod.TaskFut.Critical
          (TaskMod.CritWrap.instrumented
            (TaskMod.CritWrap.intercepted (some "X")
              (Except.error (PanicPayload.str "boom")))) ∧
    (TaskMod.CritWrap.run
        (TaskMod.CritWrap.instrumented
          (TaskMod.CritWrap.intercepted (some "X")
            (Except.error (PanicPayload.str "boom"))))).fired = false :=
  ⟨rfl, rfl⟩

/-- C6 amended: `CriticalTaskBuilder::build` first wraps the future with
panic interception — which captures the unwind payload into a (nameless)
panic record and logs a diagnostic, but fires no cancellation signal (the
builder path holds no token; only `TaskManager::critical_task` cancels) —
and only then, if metrics are enabled, applies the metrics
instrumentation wrapping on the outside. -/
theorem c6_build_order (b : TaskMod.CriticalTaskBuilder) :
    (b.metrics = true →
       b.build.fut = TaskMod.TaskFut.Critical
         (TaskMod.CritWrap.instrumented
           (TaskMod.CritWrap.intercepted b.name b.fut)) ∧
       b.build.monitor = some ()) ∧
    (b.metrics = false →
       b.build.fut = TaskMod.TaskFut.Critical
         (TaskMod.CritWrap.intercepted b.name b.fut) ∧
       b.build.monitor = none) ∧
    (∀ nm p, TaskMod.CritWrap.run
        (TaskMod.CritWrap.intercepted nm (Except.error p))
      = ⟨some ⟨p⟩,
         [⟨"Critical task failed.", nm, TaskMod.PanickedTaskError.display ⟨p⟩⟩],
         false, ()⟩) ∧
    (∀ w, (TaskMod.CritWrap.instrumented w).run = w.run) := by
  refine ⟨?_, ?_, fun nm p => rfl, fun w => rfl⟩
  · intro h
    simp [TaskMod.CriticalTaskBuilder.build, TaskMod.TaskFut.critical, h]
  · intro h
    simp [TaskMod.CriticalTaskBuilder.build, TaskMod.TaskFut.critical, h]

/-- C6 witness: a metrics-enabled critical builder with a panicking body,
built: instrumentation outside, interception inside, record and log on
panic, no signal fired. -/
theorem c6_witness :
    ((TaskMod.CriticalTaskBuilder.build
        ⟨Except.error PanicPayload.nonStr, true, some "Y"⟩).fut
      = TaskMod.TaskFut.Critical
          (TaskMod.CritWrap.instrumented
            (TaskMod.CritWrap.intercepted (some "Y")
              (Except.error PanicPayload.nonStr))) ∧
     (TaskMod.CriticalTaskBuilder.build
        ⟨Except.error PanicPayload.nonStr, true, some "Y"⟩).monitor = some ()) ∧
    TaskMod.CritWrap.run
        (TaskMod.CritWrap.intercepted (some "Y") (Except.error PanicPayload.nonStr))
      = ⟨some ⟨PanicPayload.nonStr⟩,
         [⟨"Critical task failed.", some "Y",
           TaskMod.PanickedTaskError.display ⟨PanicPayload.nonStr⟩⟩],
         false, ()⟩ :=
  ⟨(c6_build_order ⟨Except.error PanicPayload.nonStr, true, some "Y"⟩).1 rfl,
   (c6_build_order ⟨Except.error PanicPayload.nonStr, true, some "Y"⟩).2.2.1
     (some "Y") PanicPayload.nonStr⟩

/-- On entries whose sample iterators are all nonempty, `report` succeeds
and pairs each entry with its advanced-by-one successor. -/
theorem report_ok_of_nonempty :
    ∀ entries : List MetricsMod.TaskEntry,
      (∀ e ∈ entries, e.intervals ≠ []) →
      ∃ es, MetricsMod.report entries = Except.ok es ∧
        List.Forall₂ (fun e e2 => ∃ s rest,
          e.intervals = s :: rest ∧
          e2.intervals = rest ∧
          e2.total_first_poll_delay_hist
            = e.total_first_poll_delay_hist ++ [s.total_first_poll_delay])
          entries es := by
  intro entries
  induction entries with
  | nil => intro _; exact ⟨[], rfl, List.Forall₂.nil⟩
  | cons e tl ih =>
      intro h
      have he := h e (by simp)
      obtain ⟨s, rest, hs⟩ : ∃ s rest, e.intervals = s :: rest := by
        cases hi : e.intervals with
        | nil => exact absurd hi he
        | cons a b => exact ⟨a, b, rfl⟩
      obtain ⟨es, hes, hf⟩ := ih (fun e2 m2 => h e2 (by simp [m2]))
      refine ⟨⟨e.total_first_poll_delay_hist ++ [s.total_first_poll_delay], rest⟩ :: es,
        ?_, List.Forall₂.cons ⟨s, rest, hs, rfl, rfl⟩ hf⟩
      simp [MetricsMod.report, MetricsMod.reportOne, hs, hes]

/-- If any entry's sample iterator is exhausted, `report` panics. -/
theorem report_error_of_empty :
    ∀ entries : List MetricsMod.TaskEntry,
      (∃ e ∈ entries, e.intervals = []) →
      MetricsMod.report entries = Except.error () := by
  intro entries
  induction entries with
  | nil => rintro ⟨e, he, _⟩; simp at he
  | cons e tl ih =>
      rintro ⟨e2, he2, hemp⟩
      rcases List.mem_cons.mp he2 with h1 | h1
      · subst h1
        simp [MetricsMod.report, MetricsMod.reportOne, hemp]
      · have htl := ih ⟨e2, h1, hemp⟩
        cases hr : MetricsMod.reportOne e with
        | error u => cases u; simp [MetricsMod.report, hr]
        | ok e3 => simp [MetricsMod.report, hr, htl]

/-- C8: on a reporting tick, the reporter advances every registered task's
sample sequence by exactly one element and records that element's
time-to-first-poll value into that task's histogram; if any task's
sequence has no next element, the whole report call panics rather than
skipping silently. -/
theorem c8_metrics_report (entries : List MetricsMod.TaskEntry) :
    ((∀ e ∈ entries, e.intervals ≠ []) →
      ∃ es, MetricsMod.report entries = Except.ok es ∧
        List.Forall₂ (fun e e2 => ∃ s rest,
          e.intervals = s :: rest ∧
          e2.intervals = rest ∧
          e2.total_first_poll_delay_hist
            = e.total_first_poll_delay_hist ++ [s.total_first_poll_delay])
          entries es) ∧
    ((∃ e ∈ entries, e.intervals = []) →
      MetricsMod.report entries = Except.error ()) :=
  ⟨report_ok_of_nonempty entries, report_error_of_empty entries⟩

/-- C8 witness: a two-task tick advances both sequences and records 5 and 7
respectively; a tick over an exhausted sequence panics. -/
theorem c8_witness :
    (∃ es, MetricsMod.report
        [MetricsMod.TaskEntry.mk [1]
           [MetricsMod.TaskMetricsSample.mk 5, MetricsMod.TaskMetricsSample.mk 9],
         MetricsMod.TaskEntry.mk [] [MetricsMod.TaskMetricsSample.mk 7]]
        = Except.ok es ∧
      List.Forall₂ (fun e e2 => ∃ s rest,
        e.intervals = s :: rest ∧
        e2.intervals = rest ∧
        e2.total_first_poll_delay_hist
          = e.total_first_poll_delay_hist ++ [s.total_first_poll_delay])
        [MetricsMod.TaskEntry.mk [1]
           [MetricsMod.TaskMetricsSample.mk 5, MetricsMod.TaskMetricsSample.mk 9],
         MetricsMod.TaskEntry.mk [] [MetricsMod.TaskMetricsSample.mk 7]] es) ∧
    MetricsMod.report [MetricsMod.TaskEntry.mk [1] []] = Except.error () :=
  ⟨(c8_metrics_report
      [MetricsMod.TaskEntry.mk [1]
         [MetricsMod.TaskMetricsSample.mk 5, MetricsMod.TaskMetricsSample.mk 9],
       MetricsMod.TaskEntry.mk [] [MetricsMod.TaskMetricsSample.mk 7]]).1 (by decide),
   (c8_metrics_report [MetricsMod.TaskEntry.mk [1] []]).2
     ⟨MetricsMod.TaskEntry.mk [1] [], by simp, rfl⟩⟩

/-- C10: every task built through `CriticalTaskBuilder::build` carries the
`Critical` variant, and polling it to completion yields
`std::mem::zeroed` at the unit type, i.e. the unit value — the `critical`
conversion itself (defined only for unit-output builders, as its Lean type
`TaskBuilder Unit → CriticalTaskBuilder` mirrors) moves the future across
unchanged, so no code path manufactures a value of any other type. -/
theorem c10_critical_unit_output (b : TaskMod.CriticalTaskBuilder) :
    (∃ w, b.build.fut = TaskMod.TaskFut.Critical w) ∧
    TaskMod.TaskFut.run TaskMod.zeroedUnit b.build.fut = Except.ok () ∧
    (∀ nb : TaskMod.TaskBuilder Unit,
       nb.critical.fut = nb.fut ∧ nb.critical.metrics = nb.metrics ∧
       nb.critical.name = nb.name) := by
  refine ⟨?_, ?_, fun nb => ⟨rfl, rfl, rfl⟩⟩
  · cases hb : b.metrics <;>
      simp [TaskMod.CriticalTaskBuilder.build, TaskMod.TaskFut.critical, hb]
  · cases hb : b.metrics <;>
      simp [TaskMod.CriticalTaskBuilder.build, TaskMod.TaskFut.critical,
        TaskMod.TaskFut.run, TaskMod.zeroedUnit, hb]
